import Mathlib

/-!
Shallow embedding of the three Playwright verification scripts in
`jules-scratch/verification/`:

* script 1, `verify.py` (`run1`): navigate to `http://localhost:3000`, wait
  for the `networkidle` load state, try a 10-second wait for a
  "New Deployment" element; on success print "Already logged in.", on a
  timeout print "Not logged in, attempting to sign in.", click
  "Sign in with GitHub" and re-wait with a 60-second bound; then take a
  screenshot and close the browser.
* script 2, `verify_fix.py` (`run2`): navigate to `http://localhost:3000`,
  wait (default bound) for a "Select a repository" element, screenshot,
  close.
* script 3, `verify_login_page.py` (`run3`): navigate to
  `http://localhost:3004/`, screenshot, close.

Each script is modelled as a function from an environment (the outcomes the
external web application gives to the fallible browser operations: whether
each selector wait finds its element within its bound, whether the sign-in
click succeeds) to the ordered trace of browser-automation events the script
performs together with the final outcome (normal termination, or the
uncaught error it terminates with).  An operation appears in the trace
exactly when the script reaches and issues it; an operation after an
uncaught error is never reached and so never appears.  The selector-wait
primitive fails only by timing out (its selector strings are fixed and
well-formed), matching the library behaviour these scripts rely on.
-/

/-- A browser-automation event issued by a script, in program order. -/
inductive Event where
  | launch : Event
  | newPage : Event
  | goto (url : String) : Event
  | waitLoadState (state : String) : Event
  | waitSelector (sel : String) (timeoutMs : Option Nat) : Event
  | click (sel : String) : Event
  | printMsg (msg : String) : Event
  | screenshot (path : String) : Event
  | closeBrowser : Event
  deriving DecidableEq, Repr

/-- The kind of uncaught error a run can terminate with. -/
inductive ErrKind where
  | waitTimeout (sel : String) : ErrKind
  | clickError (sel : String) : ErrKind
  deriving DecidableEq, Repr

/-- Final outcome of a script run: normal termination, or the uncaught
error it terminates with. -/
inductive Outcome where
  | success : Outcome
  | error (k : ErrKind) : Outcome
  deriving DecidableEq, Repr

/-- The fixed relative path every screenshot call in the repository uses. -/
def verificationPng : String := "jules-scratch/verification/verification.png"

/-- Environment for script 1 (`verify.py`): the outcomes the page gives to
its three fallible operations. -/
structure Env1 where
  /-- the "New Deployment" element becomes visible within the 10000 ms
  bound of the first selector wait -/
  firstWaitFound : Bool
  /-- the click on the "Sign in with GitHub" element succeeds -/
  clickOk : Bool
  /-- the "New Deployment" element becomes visible within the 60000 ms
  bound of the post-click selector wait -/
  secondWaitFound : Bool
  deriving DecidableEq, Repr

/-- Script 1, `verify.py` `run`: launch, new page, goto
`http://localhost:3000`, wait for the `networkidle` load state, then
`try:` a 10 s selector wait for "New Deployment" and print
"Already logged in."; `except:` print
"Not logged in, attempting to sign in.", click "Sign in with GitHub",
re-wait 60 s; finally screenshot and close the browser. -/
def run1 (env : Env1) : List Event × Outcome :=
  let start := [Event.launch, Event.newPage,
    Event.goto "http://localhost:3000",
    Event.waitLoadState "networkidle",
    Event.waitSelector "New Deployment" (some 10000)]
  if env.firstWaitFound then
    (start ++ [Event.printMsg "Already logged in.",
      Event.screenshot verificationPng, Event.closeBrowser],
     Outcome.success)
  else
    let t := start ++ [Event.printMsg "Not logged in, attempting to sign in.",
      Event.click "Sign in with GitHub"]
    if env.clickOk then
      let t2 := t ++ [Event.waitSelector "New Deployment" (some 60000)]
      if env.secondWaitFound then
        (t2 ++ [Event.screenshot verificationPng, Event.closeBrowser],
         Outcome.success)
      else
        (t2, Outcome.error (ErrKind.waitTimeout "New Deployment"))
    else
      (t, Outcome.error (ErrKind.clickError "Sign in with GitHub"))

/-- Environment for script 2 (`verify_fix.py`): the outcome of its single
fallible operation. -/
structure Env2 where
  /-- the "Select a repository" element becomes visible within the default
  bound of the selector wait (no explicit timeout is passed) -/
  waitFound : Bool
  deriving DecidableEq, Repr

/-- Script 2, `verify_fix.py` `main`: launch, new page, goto
`http://localhost:3000`, selector wait for "Select a repository" with the
default bound, screenshot, close the browser. -/
def run2 (env : Env2) : List Event × Outcome :=
  let start := [Event.launch, Event.newPage,
    Event.goto "http://localhost:3000",
    Event.waitSelector "Select a repository" none]
  if env.waitFound then
    (start ++ [Event.screenshot verificationPng, Event.closeBrowser],
     Outcome.success)
  else
    (start, Outcome.error (ErrKind.waitTimeout "Select a repository"))

/-- Script 3, `verify_login_page.py` `run`: launch, new page, goto
`http://localhost:3004/`, screenshot, close the browser.  No selector wait
occurs anywhere, so the run is insensitive to page content. -/
def run3 : List Event × Outcome :=
  ([Event.launch, Event.newPage,
    Event.goto "http://localhost:3004/",
    Event.screenshot verificationPng, Event.closeBrowser],
   Outcome.success)

/-- The file paths a trace writes to disk: the paths of its screenshot
events, in order.  No other event writes to disk. -/
def fileWrites (trace : List Event) : List String :=
  trace.filterMap fun e =>
    match e with
    | Event.screenshot p => some p
    | _ => none

/-- `true` exactly on selector-wait events. -/
def isWaitSelector : Event → Bool
  | Event.waitSelector _ _ => true
  | _ => false

/-- Claim C1: if the "New Deployment" element becomes visible within the
10-second bound of script 1's first selector wait, script 1 terminates
successfully, prints "Already logged in.", never clicks the
"Sign in with GitHub" element, and writes the screenshot to
`jules-scratch/verification/verification.png`. -/
theorem c1_first_wait_success (env : Env1) (h : env.firstWaitFound = true) :
    (run1 env).2 = Outcome.success ∧
    Event.printMsg "Already logged in." ∈ (run1 env).1 ∧
    Event.click "Sign in with GitHub" ∉ (run1 env).1 ∧
    Event.screenshot verificationPng ∈ (run1 env).1 ∧
    fileWrites (run1 env).1 = [verificationPng] := by
  simp [run1, h, fileWrites, verificationPng]

/-- Witness for C1 at the concrete environment where the first wait finds
its element. -/
theorem c1_first_wait_success_witness :
    (run1 ⟨true, true, true⟩).2 = Outcome.success ∧
    Event.printMsg "Already logged in." ∈ (run1 ⟨true, true, true⟩).1 ∧
    Event.click "Sign in with GitHub" ∉ (run1 ⟨true, true, true⟩).1 ∧
    Event.screenshot verificationPng ∈ (run1 ⟨true, true, true⟩).1 ∧
    fileWrites (run1 ⟨true, true, true⟩).1 = [verificationPng] :=
  c1_first_wait_success ⟨true, true, true⟩ rfl

/-- Claim C2: if script 1's first 10-second wait fails, the click on
"Sign in with GitHub" succeeds, and "New Deployment" becomes visible within
the 60-second bound of the second wait, then script 1 terminates
successfully, prints "Not logged in, attempting to sign in.", and writes
the screenshot to `jules-scratch/verification/verification.png`. -/
theorem c2_fallback_success (env : Env1) (h1 : env.firstWaitFound = false)
    (h2 : env.clickOk = true) (h3 : env.secondWaitFound = true) :
    (run1 env).2 = Outcome.success ∧
    Event.printMsg "Not logged in, attempting to sign in." ∈ (run1 env).1 ∧
    Event.screenshot verificationPng ∈ (run1 env).1 ∧
    fileWrites (run1 env).1 = [verificationPng] := by
  simp [run1, h1, h2, h3, fileWrites, verificationPng]

/-- Witness for C2 at the concrete environment where the first wait times
out, the click succeeds and the second wait finds its element. -/
theorem c2_fallback_success_witness :
    (run1 ⟨false, true, true⟩).2 = Outcome.success ∧
    Event.printMsg "Not logged in, attempting to sign in." ∈ (run1 ⟨false, true, true⟩).1 ∧
    Event.screenshot verificationPng ∈ (run1 ⟨false, true, true⟩).1 ∧
    fileWrites (run1 ⟨false, true, true⟩).1 = [verificationPng] :=
  c2_fallback_success ⟨false, true, true⟩ rfl rfl rfl

/-- Claim C3: if both of script 1's selector waits for "New Deployment"
fail (the first within 10 s, the post-click one within 60 s), script 1
terminates with an uncaught timeout error, the screenshot call is never
reached, and the run writes no file at all. -/
theorem c3_both_waits_fail (env : Env1) (h1 : env.firstWaitFound = false)
    (h2 : env.clickOk = true) (h3 : env.secondWaitFound = false) :
    (run1 env).2 = Outcome.error (ErrKind.waitTimeout "New Deployment") ∧
    Event.screenshot verificationPng ∉ (run1 env).1 ∧
    fileWrites (run1 env).1 = [] := by
  simp [run1, h1, h2, h3, fileWrites, verificationPng]

/-- Witness for C3 at the concrete environment where both waits time out
and the click succeeds. -/
theorem c3_both_waits_fail_witness :
    (run1 ⟨false, true, false⟩).2 = Outcome.error (ErrKind.waitTimeout "New Deployment") ∧
    Event.screenshot verificationPng ∉ (run1 ⟨false, true, false⟩).1 ∧
    fileWrites (run1 ⟨false, true, false⟩).1 = [] :=
  c3_both_waits_fail ⟨false, true, false⟩ rfl rfl rfl

/-- Claim C4: script 1 enters its sign-in fallback branch (the
"Not logged in, attempting to sign in." print and the
"Sign in with GitHub" click) exactly when the first selector wait fails,
and in the embedding the first selector wait fails only by timing out, so a
selector-wait timeout is the only failure kind that selects that branch. -/
theorem c4_fallback_iff_first_timeout (env : Env1) :
    (Event.printMsg "Not logged in, attempting to sign in." ∈ (run1 env).1 ↔
      env.firstWaitFound = false) ∧
    (Event.click "Sign in with GitHub" ∈ (run1 env).1 ↔
      env.firstWaitFound = false) := by
  rcases env with ⟨f, c, s⟩
  cases f <;> cases c <;> cases s <;> simp [run1]

/-- Claim C10: in script 1's fallback branch, if the click on the
"Sign in with GitHub" element itself fails, the error is uncaught, the
script terminates abnormally, and no screenshot is written. -/
theorem c10_click_failure_uncaught (env : Env1) (h1 : env.firstWaitFound = false)
    (h2 : env.clickOk = false) :
    (run1 env).2 = Outcome.error (ErrKind.clickError "Sign in with GitHub") ∧
    Event.screenshot verificationPng ∉ (run1 env).1 ∧
    fileWrites (run1 env).1 = [] := by
  simp [run1, h1, h2, fileWrites, verificationPng]

/-- Witness for C10 at the concrete environment where the first wait times
out and the click fails. -/
theorem c10_click_failure_uncaught_witness :
    (run1 ⟨false, false, false⟩).2 = Outcome.error (ErrKind.clickError "Sign in with GitHub") ∧
    Event.screenshot verificationPng ∉ (run1 ⟨false, false, false⟩).1 ∧
    fileWrites (run1 ⟨false, false, false⟩).1 = [] :=
  c10_click_failure_uncaught ⟨false, false, false⟩ rfl rfl

/-- Claim C5: for every run of script 2, if the "Select a repository"
element becomes visible within the default wait bound the script terminates
successfully and writes the screenshot; if the wait fails the timeout error
propagates uncaught, the run terminates abnormally, and no file is
written. -/
theorem c5_script2_wait_dichotomy (env : Env2) :
    (env.waitFound = true →
      (run2 env).2 = Outcome.success ∧
      Event.screenshot verificationPng ∈ (run2 env).1 ∧
      fileWrites (run2 env).1 = [verificationPng]) ∧
    (env.waitFound = false →
      (run2 env).2 = Outcome.error (ErrKind.waitTimeout "Select a repository") ∧
      Event.screenshot verificationPng ∉ (run2 env).1 ∧
      fileWrites (run2 env).1 = []) := by
  rcases env with ⟨w⟩
  cases w <;> simp [run2, fileWrites, verificationPng]

/-- Witness for C5 at the two concrete environments of script 2. -/
theorem c5_script2_wait_dichotomy_witness :
    ((run2 ⟨true⟩).2 = Outcome.success ∧
      Event.screenshot verificationPng ∈ (run2 ⟨true⟩).1 ∧
      fileWrites (run2 ⟨true⟩).1 = [verificationPng]) ∧
    ((run2 ⟨false⟩).2 = Outcome.error (ErrKind.waitTimeout "Select a repository") ∧
      Event.screenshot verificationPng ∉ (run2 ⟨false⟩).1 ∧
      fileWrites (run2 ⟨false⟩).1 = []) :=
  ⟨(c5_script2_wait_dichotomy ⟨true⟩).1 rfl,
   (c5_script2_wait_dichotomy ⟨false⟩).2 rfl⟩

/-- Claim C6: script 3 always writes the screenshot of whatever is rendered
at `http://localhost:3004/` once navigation completes: its trace is exactly
launch, new page, goto, screenshot, close; it contains no selector wait of
any kind; and the run terminates successfully. -/
theorem c6_script3_always_screenshots :
    run3.1 = [Event.launch, Event.newPage, Event.goto "http://localhost:3004/",
      Event.screenshot verificationPng, Event.closeBrowser] ∧
    run3.1.all (fun e => !isWaitSelector e) = true ∧
    run3.2 = Outcome.success ∧
    Event.screenshot verificationPng ∈ run3.1 := by
  refine ⟨rfl, rfl, rfl, ?_⟩
  decide

/-- Claim C9: every run of script 1 begins with launch, new page, goto
`http://localhost:3000`, the `networkidle` load-state wait, and only then
the 10-second selector wait for "New Deployment": the load-state wait sits
strictly between navigation and the first selector wait. -/
theorem c9_networkidle_before_first_wait (env : Env1) :
    (run1 env).1.take 5 =
      [Event.launch, Event.newPage, Event.goto "http://localhost:3000",
       Event.waitLoadState "networkidle",
       Event.waitSelector "New Deployment" (some 10000)] := by
  rcases env with ⟨f, c, s⟩
  cases f <;> cases c <;> cases s <;> rfl

/-- Claim C7: in every script the browser launch is the first event and the
close call ends the single success path, right after the screenshot; on an
uncaught failure the close call is never reached; and this unguarded error
path (close skipped on error) is reachable in exactly two of the three
scripts — scripts 1 and 2 — while script 3 always succeeds and closes. -/
theorem c7_browser_scoping :
    (∀ env : Env1, (run1 env).1.head? = some Event.launch) ∧
    (∀ env : Env2, (run2 env).1.head? = some Event.launch) ∧
    run3.1.head? = some Event.launch ∧
    (∀ env : Env1, (run1 env).2 = Outcome.success →
      [Event.screenshot verificationPng, Event.closeBrowser] <:+ (run1 env).1) ∧
    (∀ env : Env2, (run2 env).2 = Outcome.success →
      [Event.screenshot verificationPng, Event.closeBrowser] <:+ (run2 env).1) ∧
    ([Event.screenshot verificationPng, Event.closeBrowser] <:+ run3.1) ∧
    (∀ env : Env1, (run1 env).2 ≠ Outcome.success →
      Event.closeBrowser ∉ (run1 env).1) ∧
    (∀ env : Env2, (run2 env).2 ≠ Outcome.success →
      Event.closeBrowser ∉ (run2 env).1) ∧
    (∃ env : Env1, (run1 env).2 ≠ Outcome.success ∧
      Event.closeBrowser ∉ (run1 env).1) ∧
    (∃ env : Env2, (run2 env).2 ≠ Outcome.success ∧
      Event.closeBrowser ∉ (run2 env).1) ∧
    (run3.2 = Outcome.success ∧ Event.closeBrowser ∈ run3.1) := by
  refine ⟨?_, ?_, rfl, ?_, ?_, by decide, ?_, ?_,
    ⟨⟨false, true, false⟩, by decide⟩, ⟨⟨false⟩, by decide⟩, by decide⟩
  · intro env; rcases env with ⟨f, c, s⟩
    cases f <;> cases c <;> cases s <;> rfl
  · intro env; rcases env with ⟨w⟩
    cases w <;> rfl
  · intro env h; rcases env with ⟨f, c, s⟩
    cases f <;> cases c <;> cases s <;>
      first
        | exact absurd h (by decide)
        | decide
  · intro env h; rcases env with ⟨w⟩
    cases w <;>
      first
        | exact absurd h (by decide)
        | decide
  · intro env h; rcases env with ⟨f, c, s⟩
    cases f <;> cases c <;> cases s <;>
      first
        | exact absurd rfl h
        | decide
  · intro env h; rcases env with ⟨w⟩
    cases w <;>
      first
        | exact absurd rfl h
        | decide

/-- Witness for C7 at concrete environments: a successful run of script 1
starts with launch and ends with screenshot then close, and the failing run
where the second wait times out never reaches the close call. -/
theorem c7_browser_scoping_witness :
    (run1 ⟨true, true, true⟩).1.head? = some Event.launch ∧
    ([Event.screenshot verificationPng, Event.closeBrowser] <:+
      (run1 ⟨true, true, true⟩).1) ∧
    Event.closeBrowser ∉ (run1 ⟨false, true, false⟩).1 :=
  ⟨c7_browser_scoping.1 ⟨true, true, true⟩,
   c7_browser_scoping.2.2.2.1 ⟨true, true, true⟩ (by decide),
   c7_browser_scoping.2.2.2.2.2.2.1 ⟨false, true, false⟩ (by decide)⟩

/-- Claim C8: in every run of every script, every file written is the single
PNG at the fixed relative path `jules-scratch/verification/verification.png`;
on each successful run that one path is written exactly once (so reruns
overwrite it), and no other state is persisted. -/
theorem c8_single_file_output :
    (∀ env : Env1, ∀ p ∈ fileWrites (run1 env).1,
      p = "jules-scratch/verification/verification.png") ∧
    (∀ env : Env2, ∀ p ∈ fileWrites (run2 env).1,
      p = "jules-scratch/verification/verification.png") ∧
    (∀ p ∈ fileWrites run3.1,
      p = "jules-scratch/verification/verification.png") ∧
    (∀ env : Env1, (run1 env).2 = Outcome.success →
      fileWrites (run1 env).1 = [verificationPng]) ∧
    (∀ env : Env2, (run2 env).2 = Outcome.success →
      fileWrites (run2 env).1 = [verificationPng]) ∧
    fileWrites run3.1 = [verificationPng] := by
  refine ⟨?_, ?_, ?_, ?_, ?_, rfl⟩
  · intro env p hp; rcases env with ⟨f, c, s⟩
    cases f <;> cases c <;> cases s <;>
      simp_all [run1, fileWrites, verificationPng]
  · intro env p hp; rcases env with ⟨w⟩
    cases w <;> simp_all [run2, fileWrites, verificationPng]
  · intro p hp
    simp_all [run3, fileWrites, verificationPng]
  · intro env h; rcases env with ⟨f, c, s⟩
    cases f <;> cases c <;> cases s <;>
      first
        | exact absurd h (by decide)
        | decide
  · intro env h; rcases env with ⟨w⟩
    cases w <;>
      first
        | exact absurd h (by decide)
        | decide

/-- Witness for C8 at a concrete successful run of script 1: the single
path written is the fixed PNG path. -/
theorem c8_single_file_output_witness :
    verificationPng = "jules-scratch/verification/verification.png" ∧
    fileWrites (run1 ⟨true, true, true⟩).1 = [verificationPng] :=
  ⟨c8_single_file_output.1 ⟨true, true, true⟩ verificationPng (by decide),
   c8_single_file_output.2.2.2.1 ⟨true, true, true⟩ (by decide)⟩

/-- Witness for C4 at the concrete environment where the first wait times
out: the fallback print and the sign-in click both occur. -/
theorem c4_fallback_iff_first_timeout_witness :
    Event.printMsg "Not logged in, attempting to sign in." ∈ (run1 ⟨false, true, true⟩).1 ∧
    Event.click "Sign in with GitHub" ∈ (run1 ⟨false, true, true⟩).1 :=
  ⟨(c4_fallback_iff_first_timeout ⟨false, true, true⟩).1.mpr rfl,
   (c4_fallback_iff_first_timeout ⟨false, true, true⟩).2.mpr rfl⟩
